import Mathlib

/-!
Verification of the `hello-py` binding module (`src/hello-py/src/lib.rs`).

The source is a pyo3 binding crate: a single `#[pyfunction] fn hello(name: &str)
-> String` that forwards to the external collaborator `hello_rs::hello`, and a
`#[pymodule] #[pyo3(name = "_rust")] fn hello_py` that registers `hello` in the
Python module object.

Embedding choices:
* A Python string is a finite sequence of Unicode code points; unlike a Rust
  string it may contain lone surrogates, so it is modelled as `List Nat`
  (`PyStr`), with well-formedness expressed by `isUnicodeScalar`.
* A Rust `&str` / `String` is a sequence of Unicode scalar values; pyo3's
  extraction of a `&str` argument from a Python `str` (`extractStr`) walks the
  code points and fails with a host-level error on the first code point that is
  not a Unicode scalar value (a lone surrogate), which is exactly when CPython
  cannot encode the text as UTF-8 for the `&str` view.
* The external Native Function `hello_rs::hello` lives outside `src/`; the
  binding's behaviour does not depend on which pure function it is, so every
  statement quantifies over an arbitrary pure `native : List Nat → List Nat`.
* The Rust function bodies read and write no global state; the state-passing
  translation `helloCall` makes that explicit by threading an arbitrary
  process-state value, and `helloTrace` additionally records the list of
  arguments on which the Native Function is invoked during one call.
* The module initialiser `hello_py` uses two fallible pyo3 operations
  (`wrap_pyfunction!` and `PyModule::add_function`); their possible failures
  are injected as `Option PyErr` parameters so that error propagation through
  the `?` operators can be proved for every outcome.
-/

/-- A host-runtime (Python-level) error value. `unicodeConversionError c`
records the offending code point of a failed `&str` extraction; `other`
stands for any further host error (used to inject registration failures). -/
inductive PyErr : Type where
  | unicodeConversionError (c : Nat) : PyErr
  | other (code : Nat) : PyErr
deriving DecidableEq, Repr

/-- A Python string: a finite sequence of Unicode code points. CPython permits
lone surrogates inside `str`, so no well-formedness is built into the type. -/
abbrev PyStr : Type := List Nat

/-- Whether a code point is a surrogate (U+D800 – U+DFFF). -/
def isSurrogate (c : Nat) : Bool :=
  decide (0xD800 ≤ c) && decide (c ≤ 0xDFFF)

/-- Whether a code point is a Unicode scalar value, i.e. storable in a Rust
`char` / `str`: below U+110000 and not a surrogate. -/
def isUnicodeScalar (c : Nat) : Bool :=
  decide (c < 0x110000) && !isSurrogate c

/-- pyo3's extraction of a Rust `&str` view from a Python `str` argument:
succeeds with the same sequence of code points when all of them are Unicode
scalar values, and raises a host-level encoding error at the first one that
is not (e.g. a lone surrogate). No truncation: either the whole string is
converted or the call fails. -/
def extractStr : PyStr → Except PyErr (List Nat)
  | [] => .ok []
  | c :: cs =>
    if isUnicodeScalar c then
      match extractStr cs with
      | .error e => .error e
      | .ok r => .ok (c :: r)
    else
      .error (.unicodeConversionError c)

/-- Conversion of an owned Rust `String` (a sequence of Unicode scalar values)
into a newly allocated Python `str` with the same code points. Every scalar
value is a valid Python code point, so this direction cannot fail and alters
nothing. -/
def stringToPy (s : List Nat) : PyStr := s

/-- The exported binding function, from `src/hello-py/src/lib.rs` lines 7–10:
`#[pyfunction] fn hello(name: &str) -> String { hello_rs::hello(name) }`
together with pyo3's argument extraction and result conversion. `native` is
the external Native Function `hello_rs::hello`. -/
def hello (native : List Nat → List Nat) (arg : PyStr) : Except PyErr PyStr :=
  match extractStr arg with
  | .error e => .error e
  | .ok name => .ok (stringToPy (native name))

/-- State-passing translation of one invocation of `hello`: the source body
mentions no `static`, global, thread-local or interior-mutable state, so the
translation threads an arbitrary process state `σ` through unchanged and the
result is computed from the argument alone. -/
def helloCall {S : Type} (native : List Nat → List Nat) (σ : S) (arg : PyStr) :
    S × Except PyErr PyStr :=
  (σ, hello native arg)

/-- Instrumented translation of `hello` that also returns the list of
arguments on which the Native Function is invoked during the call (the source
calls `hello_rs::hello` exactly once on the success path and not at all when
argument extraction fails; there is no retry loop). -/
def helloTrace (native : List Nat → List Nat) (arg : PyStr) :
    Except PyErr PyStr × List (List Nat) :=
  match extractStr arg with
  | .error e => (.error e, [])
  | .ok name => (.ok (stringToPy (native name)), [name])

/-- The Python-visible module name, fixed by `#[pyo3(name = "_rust")]` on the
module initialiser. -/
def moduleName : String := "_rust"

/-- The Rust-level name of the module initialiser function (`fn hello_py`),
which the `#[pyo3(name = ...)]` attribute overrides as the Python-visible
module name. -/
def rustInitName : String := "hello_py"

/-- The Python-visible name of the exported callable, taken by
`wrap_pyfunction!` from `#[pyfunction] fn hello`. -/
def helloFnName : String := "hello"

/-- A Python module object: its table of registered callables, each a function
of one positional string argument. -/
structure PyModule : Type where
  fns : List (String × (PyStr → Except PyErr PyStr))

/-- pyo3's `wrap_pyfunction!(hello, m)`: builds the Python function object for
`hello` (name and callable). It returns `PyResult`, so a possible host failure
is injected as `wrapFailure`. -/
def wrap_pyfunction_hello (native : List Nat → List Nat)
    (wrapFailure : Option PyErr) :
    Except PyErr (String × (PyStr → Except PyErr PyStr)) :=
  match wrapFailure with
  | some e => .error e
  | none => .ok (helloFnName, hello native)

/-- pyo3's `PyModule::add_function`: appends the function object to the module
table, or fails with the injected host error, leaving the table unchanged. -/
def add_function (m : PyModule) (f : String × (PyStr → Except PyErr PyStr))
    (addFailure : Option PyErr) : Except PyErr PyModule :=
  match addFailure with
  | some e => .error e
  | none => .ok ⟨m.fns ++ [f]⟩

/-- The module initialiser, from `src/hello-py/src/lib.rs` lines 13–18:
`fn hello_py(m) -> PyResult<()> { m.add_function(wrap_pyfunction!(hello, m)?)?;
Ok(()) }`, translated with the module table passed explicitly (the updated
module is returned in place of `()`). -/
def hello_py (native : List Nat → List Nat)
    (wrapFailure addFailure : Option PyErr) (m : PyModule) :
    Except PyErr PyModule :=
  match wrap_pyfunction_hello native wrapFailure with
  | .error e => .error e
  | .ok f => add_function m f addFailure

/-- Module load on the success path: the host runtime creates an empty module
object, runs the initialiser `hello_py`, and binds the result in its registry
under the fixed module name `_rust`. -/
def loadModule (native : List Nat → List Nat) :
    Except PyErr (List (String × PyModule)) :=
  match hello_py native none none ⟨[]⟩ with
  | .error e => .error e
  | .ok m => .ok [(moduleName, m)]

/-- When every code point of `s` is a Unicode scalar value, pyo3's `&str`
extraction succeeds and returns exactly `s`: no alteration, no truncation. -/
theorem extractStr_ok_of_valid (s : PyStr)
    (h : s.all isUnicodeScalar = true) : extractStr s = .ok s := by
  induction s with
  | nil => rfl
  | cons c cs ih =>
    rw [List.all_cons, Bool.and_eq_true] at h
    simp only [extractStr, h.1, if_true, ih h.2]

/-- When some code point of `s` is not a Unicode scalar value, pyo3's `&str`
extraction fails with a Unicode conversion error. -/
theorem extractStr_error_of_invalid (s : PyStr)
    (h : s.all isUnicodeScalar = false) :
    ∃ c, extractStr s = .error (.unicodeConversionError c) ∧
      isUnicodeScalar c = false := by
  induction s with
  | nil => simp [List.all_nil] at h
  | cons c cs ih =>
    by_cases hc : isUnicodeScalar c = true
    · rw [List.all_cons, hc, Bool.true_and] at h
      obtain ⟨d, hd, hds⟩ := ih h
      exact ⟨d, by simp only [extractStr, hc, if_true, hd], hds⟩
    · exact ⟨c, by simp [extractStr, hc], by simpa using hc⟩

/-- C1: for every valid input string `s` (every code point a Unicode scalar
value), the exported binding `hello` returns exactly the Native Function's
output for `s`, with no alteration, truncation or re-encoding. -/
theorem hello_identity (native : List Nat → List Nat) (s : PyStr)
    (h : s.all isUnicodeScalar = true) :
    hello native s = .ok (native s) := by
  simp only [hello, extractStr_ok_of_valid s h, stringToPy]

/-- Witness for C1: the valid string "Hi" ([72, 105]); with a concrete native
function the binding returns exactly its output. -/
theorem hello_identity_witness :
    ([72, 105] : PyStr).all isUnicodeScalar = true ∧
    hello (fun r => r ++ [33]) [72, 105] =
      .ok ((fun r => r ++ [33]) [72, 105]) :=
  ⟨by decide, hello_identity (fun r => r ++ [33]) [72, 105] (by decide)⟩

/-- C2: the exported `hello` is deterministic and stateless: in the
state-passing translation the result of a call is the same pure function of
the argument whatever the process state is (so two calls in the same process
with the same input give identical output), and the process state after the
call is exactly the state before it (no hidden, cached or global state is read
or written, and nothing is retained beyond the call). -/
theorem hello_deterministic_stateless {S : Type}
    (native : List Nat → List Nat) (σ σ' : S) (arg : PyStr) :
    (helloCall native σ arg).2 = (helloCall native σ' arg).2 ∧
    (helloCall native σ arg).2 = hello native arg ∧
    (helloCall native σ arg).1 = σ :=
  ⟨rfl, rfl, rfl⟩

/-- C3: calling the exported `hello` with the empty string succeeds and
returns exactly the Native Function's output for the empty string. -/
theorem hello_empty_string (native : List Nat → List Nat) :
    hello native [] = .ok (native []) := rfl

/-- C4: every string the host encoding permits for the boundary (every code
point a Unicode scalar value, including arbitrary multi-byte Unicode content)
is accepted whole — the `&str` extraction succeeds with exactly the input, no
truncation — and the output is exactly the Native Function's output with every
code point preserved by the result conversion. -/
theorem hello_unicode_preserved (native : List Nat → List Nat) (s : PyStr)
    (h : s.all isUnicodeScalar = true) :
    extractStr s = .ok s ∧
    hello native s = .ok (stringToPy (native s)) ∧
    stringToPy (native s) = native s := by
  refine ⟨extractStr_ok_of_valid s h, ?_, rfl⟩
  simp only [hello, extractStr_ok_of_valid s h]

/-- Witness for C4: the multi-byte Unicode string "héllo🌍"
([104, 233, 108, 108, 111, 127757]) is accepted and preserved. -/
theorem hello_unicode_preserved_witness :
    ([104, 233, 108, 108, 111, 127757] : PyStr).all isUnicodeScalar = true ∧
    (extractStr [104, 233, 108, 108, 111, 127757] =
        .ok [104, 233, 108, 108, 111, 127757] ∧
      hello List.reverse [104, 233, 108, 108, 111, 127757] =
        .ok (stringToPy (List.reverse [104, 233, 108, 108, 111, 127757])) ∧
      stringToPy (List.reverse [104, 233, 108, 108, 111, 127757]) =
        List.reverse [104, 233, 108, 108, 111, 127757]) :=
  ⟨by decide,
    hello_unicode_preserved List.reverse [104, 233, 108, 108, 111, 127757]
      (by decide)⟩

/-- C5: the module initialiser registers exactly one callable; after a module
load the registry resolves the fixed module name `_rust` to the module, the
module's table resolves the fixed function name `hello` to the callable, and
that callable applied to a single positional string argument behaves as the
exported `hello`. -/
theorem module_exposes_single_callable (native : List Nat → List Nat)
    (arg : PyStr) :
    ∃ m : PyModule,
      hello_py native none none ⟨[]⟩ = .ok m ∧
      m.fns.length = 1 ∧
      loadModule native = .ok [(moduleName, m)] ∧
      [(moduleName, m)].lookup moduleName = some m ∧
      ∃ f, m.fns.lookup helloFnName = some f ∧ f arg = hello native arg :=
  ⟨⟨[(helloFnName, hello native)]⟩, rfl, rfl, rfl, by simp,
    hello native, by simp [helloFnName], rfl⟩

/-- C6: when the input cannot be interpreted in the Rust string type's
expected encoding (some code point is not a Unicode scalar value, e.g. a lone
surrogate), the call fails with a host-runtime-level error — the Unicode
conversion error at an offending code point — and never returns any string
result, so no corrupted or truncated output is produced. -/
theorem hello_encoding_failure (native : List Nat → List Nat) (s : PyStr)
    (h : s.all isUnicodeScalar = false) :
    (∃ c, hello native s = .error (.unicodeConversionError c) ∧
        isUnicodeScalar c = false) ∧
    ∀ v : PyStr, hello native s ≠ .ok v := by
  obtain ⟨c, hc, hcs⟩ := extractStr_error_of_invalid s h
  refine ⟨⟨c, by simp only [hello, hc], hcs⟩, fun v hv => ?_⟩
  rw [hello, hc] at hv
  exact Except.noConfusion hv

/-- Witness for C6: the string consisting of the lone surrogate U+D800 is
rejected with an error and yields no result. -/
theorem hello_encoding_failure_witness :
    ([0xD800] : PyStr).all isUnicodeScalar = false ∧
    ((∃ c, hello id [0xD800] = .error (.unicodeConversionError c) ∧
        isUnicodeScalar c = false) ∧
      ∀ v : PyStr, hello id [0xD800] ≠ .ok v) :=
  ⟨by decide, hello_encoding_failure id [0xD800] (by decide)⟩

/-- C7: every invocation of the exported `hello` is atomic and all-or-nothing:
its result is either a success carrying a value or an error carrying no value,
never both; the instrumented translation shows the Native Function is invoked
at most once per call (exactly once on success, not at all on failure), so
there are no retries or partial results on any path. -/
theorem hello_atomic (native : List Nat → List Nat) (arg : PyStr) :
    (helloTrace native arg).1 = hello native arg ∧
    (helloTrace native arg).2.length ≤ 1 ∧
    ((∃ v, hello native arg = .ok v ∧ (helloTrace native arg).2.length = 1) ∨
      (∃ e, hello native arg = .error e ∧
        (helloTrace native arg).2.length = 0)) ∧
    (¬(∃ v, hello native arg = .ok v) ∨
      ¬(∃ e, hello native arg = .error e)) := by
  rcases hx : extractStr arg with e | name
  · exact ⟨by simp [helloTrace, hello, hx], by simp [helloTrace, hx],
      Or.inr ⟨e, by simp [hello, hx], by simp [helloTrace, hx]⟩,
      Or.inl fun ⟨v, hv⟩ => by simp [hello, hx] at hv⟩
  · exact ⟨by simp [helloTrace, hello, hx], by simp [helloTrace, hx],
      Or.inl ⟨stringToPy (native name), by simp [hello, hx],
        by simp [helloTrace, hx]⟩,
      Or.inr fun ⟨e, he⟩ => by simp [hello, hx] at he⟩

/-- C8: concurrent invocations from independent host threads: in the
state-passing translation, each call's result is the pure `hello` of its own
argument regardless of the shared process state or of which call ran first
(no cross-contamination), and neither call changes the process state (no
shared mutable state, no coordination needed). -/
theorem hello_concurrent_independent {S : Type}
    (native : List Nat → List Nat) (σ : S) (a b : PyStr) :
    (helloCall native σ a).2 = hello native a ∧
    (helloCall native (helloCall native σ a).1 b).2 = hello native b ∧
    (helloCall native σ b).2 = hello native b ∧
    (helloCall native (helloCall native σ b).1 a).2 = hello native a ∧
    (helloCall native (helloCall native σ a).1 b).1 = σ ∧
    (helloCall native (helloCall native σ b).1 a).1 = σ :=
  ⟨rfl, rfl, rfl, rfl, rfl, rfl⟩

/-- C9: the fixed external identifiers: the module registers under the
Python-visible name `_rust`, which overrides (differs from) the Rust
initialiser name `hello_py`, and the single callable registered inside the
module is named `hello`. -/
theorem fixed_external_identifiers (native : List Nat → List Nat) :
    moduleName = "_rust" ∧
    rustInitName = "hello_py" ∧
    moduleName ≠ rustInitName ∧
    helloFnName = "hello" ∧
    hello_py native none none ⟨[]⟩ =
      .ok ⟨[(helloFnName, hello native)]⟩ :=
  ⟨rfl, rfl, by decide, rfl, rfl⟩

/-- C10: the module initialiser succeeds exactly when both registration steps
succeed; a `wrap_pyfunction` failure is propagated unchanged and the
subsequent `add_function` step is never consulted (the module table is touched
by no further registration), and an `add_function` failure is likewise
propagated unchanged rather than swallowed. -/
theorem hello_py_error_propagation (native : List Nat → List Nat)
    (m : PyModule) :
    (hello_py native none none m =
        .ok ⟨m.fns ++ [(helloFnName, hello native)]⟩) ∧
    (∀ e af, hello_py native (some e) af m = .error e) ∧
    (∀ e, hello_py native none (some e) m = .error e) ∧
    (∀ wf af, (∃ m', hello_py native wf af m = .ok m') ↔
        wf = none ∧ af = none) := by
  refine ⟨rfl, fun e af => rfl, fun e => rfl, fun wf af => ?_⟩
  constructor
  · rintro ⟨m', hm⟩
    cases wf with
    | some e => exact absurd hm (by simp [hello_py, wrap_pyfunction_hello])
    | none =>
      cases af with
      | some e =>
        exact absurd hm (by simp [hello_py, wrap_pyfunction_hello, add_function])
      | none => exact ⟨rfl, rfl⟩
  · rintro ⟨rfl, rfl⟩
    exact ⟨⟨m.fns ++ [(helloFnName, hello native)]⟩, rfl⟩
